import Mathlib

/-!
Shallow embedding of `t2kbfnd` (src/main.rs): a daemon that drives a
touchbar mode attribute from keyboard Fn-key events and a touchbar
backlight attribute from an idle timer.

Hardware writes are modelled by a `writeOk : Bool` parameter (whether the
underlying `write_all` succeeds) together with an explicit trace of the
strings written to the attribute, so that claims about which writes are
issued can be stated.  Attribute reads are modelled by passing the read
content (`String`) as an argument.  Evdev key-event values follow the
Linux input convention: value 1 is a key press, 0 a release, 2 autorepeat.
-/

/-- `str::trim`: the string with leading and trailing whitespace removed
(modelled over the character list; whitespace per `Char.isWhitespace`,
which covers the ASCII whitespace the attribute contents can contain). -/
def rust_trim (s : String) : String :=
  ⟨((s.data.dropWhile Char.isWhitespace).reverse.dropWhile
      Char.isWhitespace).reverse⟩

/-- `enum TouchbarMode { Esc = 0, Function = 1, Media = 2 }`. -/
inductive TouchbarMode where
  | Esc
  | Function
  | Media
deriving DecidableEq, Repr

/-- The fixed integer encoding of each mode (`mode as u32`). -/
def TouchbarMode.code : TouchbarMode → Nat
  | .Esc => 0
  | .Function => 1
  | .Media => 2

/-- `enum TbBacklightMode { Off = 0, Dim = 1, Max = 2 }`. -/
inductive TbBacklightMode where
  | Off
  | Dim
  | Max
deriving DecidableEq, Repr

/-- The fixed integer encoding of each backlight level (`mode as u32`). -/
def TbBacklightMode.code : TbBacklightMode → Nat
  | .Off => 0
  | .Dim => 1
  | .Max => 2

/-- Errors surfaced by the embedded operations (the Rust code uses
`anyhow::Error`; we distinguish the classes the spec names). -/
inductive TbError where
  | unknownState
  | hardware
  | badConfig
  | io
deriving DecidableEq, Repr

/-- In-memory state of `struct Touchbar` (the file descriptor is not part
of the model; `state` is the cached mode, `default_mode` the configured
default). -/
structure Touchbar where
  state : TouchbarMode
  default_mode : TouchbarMode
deriving DecidableEq, Repr

/-- `Touchbar::new`: parse of the single initial read of the mode
attribute.  The Rust code trims the buffer and matches "0"/"1"/"2",
returning `Err("Touchbar state unknown")` otherwise. -/
def Touchbar.new (default_mode : TouchbarMode) (buf : String) :
    Except TbError Touchbar :=
  let t := rust_trim buf
  if t = "0" then .ok ⟨TouchbarMode.Esc, default_mode⟩
  else if t = "1" then .ok ⟨TouchbarMode.Function, default_mode⟩
  else if t = "2" then .ok ⟨TouchbarMode.Media, default_mode⟩
  else .error .unknownState

/-- `Touchbar::set_mode`: writes the mode's encoding to the attribute and,
on success, updates the cached `state`.  The returned list is the trace of
strings written to the attribute (the write is attempted unconditionally);
on write failure the `?` operator returns early, leaving `state`
untouched. -/
def Touchbar.set_mode (t : Touchbar) (writeOk : Bool) (mode : TouchbarMode) :
    (Touchbar × Except TbError Unit) × List String :=
  if writeOk then
    (({ t with state := mode }, .ok ()), [toString mode.code])
  else
    ((t, .error .hardware), [toString mode.code])

/-- In-memory state of `struct TbBacklight`. -/
structure TbBacklight where
  state : TbBacklightMode
deriving DecidableEq, Repr

/-- `TbBacklight::new`: parse of the single initial read of the brightness
attribute; trims and matches "0"/"1"/"2", otherwise
`Err("Touchbar backlight state unknown")`. -/
def TbBacklight.new (buf : String) : Except TbError TbBacklight :=
  let t := rust_trim buf
  if t = "0" then .ok ⟨TbBacklightMode.Off⟩
  else if t = "1" then .ok ⟨TbBacklightMode.Dim⟩
  else if t = "2" then .ok ⟨TbBacklightMode.Max⟩
  else .error .unknownState

/-- `TbBacklight::set_brightness`: writes the level's encoding to the
attribute unconditionally (the Rust body has no `target == current` check)
and on success updates the cached `state`.  The list is the trace of
strings written. -/
def TbBacklight.set_brightness (b : TbBacklight) (writeOk : Bool)
    (mode : TbBacklightMode) :
    (TbBacklight × Except TbError Unit) × List String :=
  if writeOk then
    (({ state := mode }, .ok ()), [toString mode.code])
  else
    ((b, .error .hardware), [toString mode.code])

/-- `load_config`: reads `/etc/t2kbfnd.txt`; `none` models a failed
`read_to_string` (missing file).  Trimmed content "media"/"function" maps
to the mode, anything else is `Err("Bad config file")`. -/
def load_config (file : Option String) : Except TbError TouchbarMode :=
  match file with
  | none => .error .io
  | some config =>
    let t := rust_trim config
    if t = "media" then .ok TouchbarMode.Media
    else if t = "function" then .ok TouchbarMode.Function
    else .error .badConfig

/-- `main`: `load_config().unwrap_or(TouchbarMode::Media)`. -/
def startup_default_mode (file : Option String) : TouchbarMode :=
  match load_config file with
  | .ok m => m
  | .error _ => TouchbarMode.Media

/-- Idle-threshold policy from the backlight task body: the
`if inactive_time >= 60 / else if >= 30 / else` chain selecting the target
level (`inactive_time` is `elapsed().as_secs()`, whole seconds). -/
def backlight_policy (inactive_time : Nat) : TbBacklightMode :=
  if inactive_time ≥ 60 then TbBacklightMode.Off
  else if inactive_time ≥ 30 then TbBacklightMode.Dim
  else TbBacklightMode.Max

/-- State of the spawned backlight task: the backlight register, the
`failure_counter`, and whether the task is still running (`alive = false`
models the `return` that ends the task). -/
structure CtrlState where
  backlight : TbBacklight
  failure_counter : Nat
  alive : Bool
deriving DecidableEq, Repr

/-- One iteration of the backlight task loop: pick the level by
`backlight_policy`, call `set_brightness`, and on `Err` run the
`unwrap_or_else` closure incrementing `failure_counter` (success leaves
the counter unchanged — the Rust body has no reset); afterwards
`if failure_counter >= 3 { return; }`.  A dead task does nothing and
issues no writes. -/
def controller_tick (s : CtrlState) (inactive_time : Nat) (writeOk : Bool) :
    CtrlState × List String :=
  if s.alive then
    let target := backlight_policy inactive_time
    let r := s.backlight.set_brightness writeOk target
    let fc := match r.1.2 with
      | .ok _ => s.failure_counter
      | .error _ => s.failure_counter + 1
    (⟨r.1.1, fc, if fc ≥ 3 then false else true⟩, r.2)
  else
    (s, [])

/-- The backlight task run over a list of ticks, each tick given the
observed idle seconds and whether the hardware write succeeds; returns the
final state and the concatenated write trace. -/
def controller_run (s : CtrlState) (ticks : List (Nat × Bool)) :
    CtrlState × List String :=
  ticks.foldl
    (fun acc t =>
      let r := controller_tick acc.1 t.1 t.2
      (r.1, acc.2 ++ r.2))
    (s, [])

/-- The subset of evdev events the keyboard loop inspects: a key event
with its code and value (1 = press, 0 = release, 2 = autorepeat per the
Linux input convention), or anything else. -/
inductive EventKind where
  | key (code : Nat) (value : Nat)
  | other
deriving DecidableEq, Repr

/-- `evdev::Key::KEY_FN` (code 0x1d0). -/
def KEY_FN : Nat := 464

/-- `evdev::Key::KEY_ESC` (code 1). -/
def KEY_ESC : Nat := 1

/-- State of the keyboard monitoring loop in `main`: the touchbar register
and the `fn_pressed` flag. -/
structure KbdState where
  touchbar : Touchbar
  fn_pressed : Bool
deriving DecidableEq, Repr

/-- One iteration of the keyboard loop in `main` on the success path of
`set_mode` (on failure the `?` operator terminates the process).  Faithful
to the source: on a `KEY_FN` event with `value == 0` it sets
`fn_pressed = true` and targets the mode that is not the default; on any
other `KEY_FN` value it sets `fn_pressed = false` and targets the default;
on any `KEY_ESC` event while `fn_pressed` it toggles `default_mode`. -/
def kbd_step (s : KbdState) (e : EventKind) : KbdState :=
  match e with
  | .key code value =>
    if code = KEY_FN then
      if value = 0 then
        { s with
          fn_pressed := true
          touchbar := { s.touchbar with
            state := if s.touchbar.default_mode = TouchbarMode.Media then
                TouchbarMode.Function
              else
                TouchbarMode.Media } }
      else
        { s with
          fn_pressed := false
          touchbar := { s.touchbar with state := s.touchbar.default_mode } }
    else if s.fn_pressed ∧ code = KEY_ESC then
      { s with
        touchbar := { s.touchbar with
          default_mode := if s.touchbar.default_mode = TouchbarMode.Media then
              TouchbarMode.Function
            else
              TouchbarMode.Media } }
    else s
  | .other => s

/-- The keyboard loop run over a list of events (success path). -/
def kbd_run (s : KbdState) (es : List EventKind) : KbdState :=
  es.foldl kbd_step s

/-- The whole daemon's task-local states side by side: the keyboard loop
and the spawned backlight task share no mutable state besides the activity
timestamp, which neither of the modelled transitions reads. -/
structure System where
  kbd : KbdState
  ctrl : CtrlState
deriving DecidableEq, Repr

/-- Processing one keyboard event in the composed system: only the
keyboard loop's state changes. -/
def system_kbd_event (sys : System) (e : EventKind) : System :=
  { sys with kbd := kbd_step sys.kbd e }

/-- A dead backlight task leaves the fold accumulator untouched. -/
theorem controller_foldl_dead (ticks : List (Nat × Bool)) (s : CtrlState)
    (ws : List String) (hdead : s.alive = false) :
    ticks.foldl
        (fun acc t =>
          let r := controller_tick acc.1 t.1 t.2
          (r.1, acc.2 ++ r.2))
        (s, ws) = (s, ws) := by
  induction ticks generalizing ws with
  | nil => rfl
  | cons t ts ih =>
    simp only [List.foldl, controller_tick, hdead, Bool.false_eq_true,
      if_false, List.append_nil]
    exact ih ws

/-- C1: the claim says a press of the function-row modifier sets the mode
to the non-default variant and a release sets it to the default.  The code
branches on `event.value() == 0`, which under the evdev convention is the
release, so the behavior is inverted: evaluated with default `Media`, a
press event (value 1) yields mode `Media` (the default, where the claim
requires `Function`) and a release event (value 0) yields mode `Function`
(the non-default, where the claim requires `Media`). -/
theorem c1_fn_press_release_inverted :
    (kbd_step ⟨⟨TouchbarMode.Media, TouchbarMode.Media⟩, false⟩
        (EventKind.key KEY_FN 1)).touchbar.state = TouchbarMode.Media ∧
    (kbd_step ⟨⟨TouchbarMode.Function, TouchbarMode.Media⟩, true⟩
        (EventKind.key KEY_FN 0)).touchbar.state = TouchbarMode.Function ∧
    TouchbarMode.Media ≠ TouchbarMode.Function := by
  decide

/-- C2: the claim says that with the modifier physically held, an Escape
press toggles the stored default.  After a real press of the modifier
(value 1) the code sets `fn_pressed = false`, so the Escape branch is not
taken and the default stays `Media`.  Moreover, even from a state the code
considers "fn pressed", the Escape branch fires on every Escape event
value, so a press followed by a release toggles the default twice, back to
its old value. -/
theorem c2_esc_toggle_not_reached_while_held :
    (kbd_run ⟨⟨TouchbarMode.Media, TouchbarMode.Media⟩, false⟩
        [EventKind.key KEY_FN 1,
         EventKind.key KEY_ESC 1]).touchbar.default_mode = TouchbarMode.Media ∧
    (kbd_run ⟨⟨TouchbarMode.Function, TouchbarMode.Media⟩, true⟩
        [EventKind.key KEY_ESC 1,
         EventKind.key KEY_ESC 0]).touchbar.default_mode = TouchbarMode.Media := by
  decide

/-- C3 counterexample: with the cached level already `Off`, requesting
`Off` still issues a write (the trace is `["0"]`, not empty), and two
consecutive calls with the same target issue two writes, refuting the
claimed idempotence. -/
theorem c3_redundant_write_counterexample :
    ¬ ((TbBacklight.set_brightness ⟨TbBacklightMode.Off⟩ true
        TbBacklightMode.Off).2 = []) ∧
    ((TbBacklight.set_brightness ⟨TbBacklightMode.Off⟩ true
          TbBacklightMode.Off).2 ++
        ((TbBacklight.set_brightness ⟨TbBacklightMode.Off⟩ true
              TbBacklightMode.Off).1.1.set_brightness true
            TbBacklightMode.Off).2).length = 2 := by
  decide

/-- C3 amended: `set_brightness` issues exactly one write of the target's
encoding on every call, even when the target equals the cached current
level (the body has no `target == current` guard), so two consecutive
calls with the same target issue two writes; on success the cached level
becomes the target. -/
theorem c3_set_brightness_always_writes (b : TbBacklight) (writeOk : Bool)
    (m : TbBacklightMode) :
    (b.set_brightness writeOk m).2 = [toString m.code] ∧
    (b.set_brightness true m).1.1.state = m ∧
    ((b.set_brightness writeOk m).2 ++
        ((b.set_brightness writeOk m).1.1.set_brightness writeOk
          m).2).length = 2 := by
  cases writeOk <;> simp [TbBacklight.set_brightness]

/-- C4: the claim says a successful `set_brightness` call resets the
failure counter to 0.  The code's `unwrap_or_else` only increments on
failure and never resets: after the tick sequence failure-then-success the
counter is 1 (the claim requires 0), and the alternating sequence
fail, ok, fail, ok, fail — which never has two consecutive failures —
drives the counter to 3 and kills the task. -/
theorem c4_failure_counter_never_reset :
    (controller_run ⟨⟨TbBacklightMode.Max⟩, 0, true⟩
        [(0, false), (0, true)]).1.failure_counter = 1 ∧
    (controller_run ⟨⟨TbBacklightMode.Max⟩, 0, true⟩
        [(0, false), (0, true), (0, false), (0, true), (0, false)]).1 =
      ⟨⟨TbBacklightMode.Max⟩, 3, false⟩ := by
  decide

/-- C5: a tick that leaves the failure counter at 3 or more ends the task
(`alive = false`); once dead, the task performs no further brightness
writes and no state change on any later tick; and processing a keyboard
event never touches the controller's state, so the give-up leaves the
keyboard loop (and the rest of the process) intact. -/
theorem c5_controller_giveup (s t : CtrlState) (ticks : List (Nat × Bool))
    (inactive_time : Nat) (writeOk : Bool) (sys : System) (e : EventKind)
    (hdead : s.alive = false) :
    controller_run s ticks = (s, []) ∧
    (3 ≤ (controller_tick t inactive_time writeOk).1.failure_counter →
      (controller_tick t inactive_time writeOk).1.alive = false) ∧
    system_kbd_event sys e = ⟨kbd_step sys.kbd e, sys.ctrl⟩ := by
  refine ⟨controller_foldl_dead ticks s [] hdead, ?_, rfl⟩
  intro h3
  by_cases ht : t.alive
  · simp only [controller_tick, ht, if_true] at h3 ⊢
    simp only [ge_iff_le]
    rw [if_pos]
    exact h3
  · simp only [controller_tick, ht, Bool.false_eq_true, if_false] at h3 ⊢

/-- Witness for C5 at a dead controller state, two concrete ticks, a
concrete almost-failed controller and a concrete keyboard event. -/
theorem c5_controller_giveup_witness :
    controller_run ⟨⟨TbBacklightMode.Max⟩, 3, false⟩ [(0, true), (70, false)] =
      (⟨⟨TbBacklightMode.Max⟩, 3, false⟩, []) ∧
    (3 ≤ (controller_tick ⟨⟨TbBacklightMode.Max⟩, 2, true⟩ 0
          false).1.failure_counter →
      (controller_tick ⟨⟨TbBacklightMode.Max⟩, 2, true⟩ 0 false).1.alive =
        false) ∧
    system_kbd_event
        ⟨⟨⟨TouchbarMode.Media, TouchbarMode.Media⟩, false⟩,
          ⟨⟨TbBacklightMode.Max⟩, 3, false⟩⟩ (EventKind.key 464 1) =
      ⟨kbd_step ⟨⟨TouchbarMode.Media, TouchbarMode.Media⟩, false⟩
          (EventKind.key 464 1),
        ⟨⟨TbBacklightMode.Max⟩, 3, false⟩⟩ :=
  c5_controller_giveup ⟨⟨TbBacklightMode.Max⟩, 3, false⟩
    ⟨⟨TbBacklightMode.Max⟩, 2, true⟩ [(0, true), (70, false)] 0 false
    ⟨⟨⟨TouchbarMode.Media, TouchbarMode.Media⟩, false⟩,
      ⟨⟨TbBacklightMode.Max⟩, 3, false⟩⟩ (EventKind.key 464 1) rfl

/-- C6: the idle policy is a total function of the elapsed idle seconds,
with thresholds in descending order and first match winning: 60 s or more
gives `Off`, otherwise 30 s or more gives `Dim`, otherwise `Max`; the
claim's six sample inputs evaluate as stated. -/
theorem c6_idle_policy (inactive_time : Nat) :
    (backlight_policy inactive_time = TbBacklightMode.Off ↔
      60 ≤ inactive_time) ∧
    (backlight_policy inactive_time = TbBacklightMode.Dim ↔
      30 ≤ inactive_time ∧ inactive_time < 60) ∧
    (backlight_policy inactive_time = TbBacklightMode.Max ↔
      inactive_time < 30) ∧
    backlight_policy 0 = TbBacklightMode.Max ∧
    backlight_policy 29 = TbBacklightMode.Max ∧
    backlight_policy 30 = TbBacklightMode.Dim ∧
    backlight_policy 59 = TbBacklightMode.Dim ∧
    backlight_policy 60 = TbBacklightMode.Off ∧
    backlight_policy 10000 = TbBacklightMode.Off := by
  refine ⟨?_, ?_, ?_, by decide, by decide, by decide, by decide, by decide,
    by decide⟩ <;>
  · by_cases h60 : 60 ≤ inactive_time <;> by_cases h30 : 30 ≤ inactive_time <;>
      simp [backlight_policy, h60, h30] <;> omega

/-- C7: `set_mode` either succeeds, updating the cached mode to the target
(and leaving the default untouched), or fails with a hardware error and
leaves the register exactly as it was; either way a single write of the
target's encoding is attempted. -/
theorem c7_set_mode_success_or_unchanged (t : Touchbar) (mode : TouchbarMode) :
    (t.set_mode true mode).1 =
      ({ state := mode, default_mode := t.default_mode }, Except.ok ()) ∧
    (t.set_mode false mode).1 = (t, Except.error TbError.hardware) ∧
    (t.set_mode true mode).2 = [toString mode.code] ∧
    (t.set_mode false mode).2 = [toString mode.code] := by
  simp [Touchbar.set_mode]

/-- C8: construction of the touchbar register from the single initial read
of the mode attribute succeeds exactly when the trimmed content is "0",
"1" or "2" (mapping to `Esc`, `Function`, `Media` with the given default),
and anything else fails with the unknown-state error. -/
theorem c8_touchbar_new_parse (d : TouchbarMode) (buf : String) :
    (Touchbar.new d buf = .ok ⟨TouchbarMode.Esc, d⟩ ↔ rust_trim buf = "0") ∧
    (Touchbar.new d buf = .ok ⟨TouchbarMode.Function, d⟩ ↔
      rust_trim buf = "1") ∧
    (Touchbar.new d buf = .ok ⟨TouchbarMode.Media, d⟩ ↔
      rust_trim buf = "2") ∧
    (Touchbar.new d buf = .error .unknownState ↔
      ¬(rust_trim buf = "0" ∨ rust_trim buf = "1" ∨ rust_trim buf = "2")) := by
  by_cases h0 : rust_trim buf = "0" <;> by_cases h1 : rust_trim buf = "1" <;>
    by_cases h2 : rust_trim buf = "2" <;>
    simp_all [Touchbar.new]

/-- C9: a missing config file, or content whose trimmed form is neither
"media" nor "function", makes startup fall back to `Media` as the default
mode. -/
theorem c9_config_fallback_media (s : String)
    (h1 : rust_trim s ≠ "media") (h2 : rust_trim s ≠ "function") :
    startup_default_mode none = TouchbarMode.Media ∧
    startup_default_mode (some s) = TouchbarMode.Media := by
  refine ⟨rfl, ?_⟩
  simp [startup_default_mode, load_config, h1, h2]

/-- Witness for C9 at the concrete malformed content "Media" (the code
only recognizes the lowercase spellings). -/
theorem c9_config_fallback_media_witness :
    startup_default_mode none = TouchbarMode.Media ∧
    startup_default_mode (some "Media") = TouchbarMode.Media :=
  c9_config_fallback_media "Media" (by decide) (by decide)

/-- C10: construction of the backlight register is strict: trimmed initial
content other than "0", "1" or "2" yields the unknown-state error rather
than a register defaulted to `Off`; in particular the `Off` result arises
exactly from content "0". -/
theorem c10_backlight_new_strict (buf : String) :
    (TbBacklight.new buf = .error .unknownState ↔
      ¬(rust_trim buf = "0" ∨ rust_trim buf = "1" ∨ rust_trim buf = "2")) ∧
    (TbBacklight.new buf = .ok ⟨TbBacklightMode.Off⟩ ↔ rust_trim buf = "0") := by
  by_cases h0 : rust_trim buf = "0" <;> by_cases h1 : rust_trim buf = "1" <;>
    by_cases h2 : rust_trim buf = "2" <;>
    simp_all [TbBacklight.new]
